import Mathlib

/-!
Verification of the kc-payment-backend transaction lifecycle.

This file gives a shallow embedding of the transaction state machine of the
repository: the `Transaction` model (`payment/apps/transactions/models.py`),
the user and admin view sets (`payment/apps/transactions/views.py`), the admin
update serializer (`payment/apps/transactions/serializers.py`), and the
notification dispatch path (`payment/apps/notifications/signals.py` and
`payment/apps/notifications/services.py`).

Each request handler in the source follows the pattern: fetch the record from
the ORM (one atomic read), decide from that snapshot, and — when it mutates —
write the snapshot back with an unconditional `save()` (one atomic write).
Handlers are therefore embedded in two forms:
* a `...Commit` function taking the current `store` record and the caller's
  `snapshot` separately, so that interleavings of concurrent requests can be
  expressed (the decision and the written value depend only on the snapshot;
  a write replaces the store wholesale, exactly as Django's `save()` does);
* a `...View` function, the serialized execution, where the snapshot is the
  store itself.
-/

namespace Payment

/-- The `TransactionStatus` text choices of
`payment/apps/transactions/models.py`. -/
inductive TransactionStatus
  | pending
  | processing
  | completed
  | failed
  | cancelled
  deriving DecidableEq, Repr

/-- The fields of the Django `User` model that the transaction views and the
notification dispatcher consult: identity, the staff and active flags, and
the email/name fields placed into notification metadata. -/
structure UserRec where
  uid : Nat
  is_staff : Bool
  is_active : Bool
  email : String
  first_name : String
  last_name : String
  deriving DecidableEq, Repr

/-- The fields of the `Transaction` model that the lifecycle logic reads or
writes.  File fields are modelled by their presence (`Bool`): the code only
ever tests their truthiness.  `processing_admin` holds the id of the claiming
admin, `none` for SQL `NULL`. -/
structure Transaction where
  userId : Nat
  status : TransactionStatus
  processing_admin : Option Nat
  transaction_completion_document : Bool
  additional_completion_document : Bool
  notes : Option String
  deriving DecidableEq, Repr

/-- `TransactionCreateSerializer.create`: a new transaction belongs to the
requesting user and is forced to `PENDING`; `processing_admin` and the
completion documents are not among the serializer's fields, so they start
null/absent. -/
def createTransaction (owner : Nat) : Transaction :=
  { userId := owner
    status := .pending
    processing_admin := none
    transaction_completion_document := false
    additional_completion_document := false
    notes := none }

/-- `AdminTransactionViewSet.check_transaction_access`
(`views.py` lines 684-708): the owner may always view; non-staff are denied;
a `PROCESSING` transaction is visible only to its processing admin; every
other status is visible to any admin. -/
def check_transaction_access (t : Transaction) (u : UserRec) : Bool :=
  if t.userId == u.uid then true
  else if !u.is_staff then false
  else if t.status == .processing then t.processing_admin == some u.uid
  else true

/-- Outcome of the admin detail view (`AdminTransactionViewSet.list` with a
`transaction_id` query parameter). -/
inductive AdminViewOutcome
  | notFound
  | forbidden
  | view (t : Transaction)
  deriving DecidableEq, Repr

/-- Outcome of the mutating endpoints (admin update, owner update, owner
cancel).  `notFound` is the 404 raised when the record is outside the
caller's queryset, `badRequest` the generic 400 of the owner endpoints,
`validationError` a DRF serializer `ValidationError` (HTTP 400), `forbidden`
an HTTP 403. -/
inductive UpdateOutcome
  | notFound
  | forbidden
  | badRequest
  | validationError
  | ok (t : Transaction)
  deriving DecidableEq, Repr

/-- The commit phase of `AdminTransactionViewSet.list` detail fetch
(`views.py` lines 770-812).  `store` is the record currently in the database,
`snapshot` the record the handler read at the start of the request.  A
non-staff caller has an empty queryset (`get_queryset`, line 670-674) and
gets 404.  Access is checked on the snapshot; if the snapshot is `PENDING`
and the caller is a staff member other than the owner, the handler sets the
status to `PROCESSING`, records itself as `processing_admin` and saves —
an unconditional write of the (modified) snapshot over the store. -/
def adminDetailCommit (store snapshot : Transaction) (u : UserRec) :
    AdminViewOutcome × Transaction :=
  if !u.is_staff then (.notFound, store)
  else if !(check_transaction_access snapshot u) then (.forbidden, store)
  else if snapshot.status == .pending && u.is_staff && snapshot.userId != u.uid then
    let t := { snapshot with status := .processing, processing_admin := some u.uid }
    (.view t, t)
  else (.view snapshot, store)

/-- Serialized execution of the admin detail view: the snapshot read is the
current store. -/
def adminDetailView (store : Transaction) (u : UserRec) :
    AdminViewOutcome × Transaction :=
  adminDetailCommit store store u

/-- `AdminTransactionUpdateSerializer.validate_status`
(`serializers.py` lines 380-402): admissible status transitions.
`PENDING` may move to `PROCESSING`, `FAILED` or `CANCELLED`; `PROCESSING` to
`COMPLETED` or `FAILED`; the three terminal statuses admit no change. -/
def validate_status (inst : Transaction) (value : TransactionStatus) : Bool :=
  match inst.status with
  | .pending => value == .processing || value == .failed || value == .cancelled
  | .processing => value == .completed || value == .failed
  | .completed => false
  | .failed => false
  | .cancelled => false

/-- The writable fields of `AdminTransactionUpdateSerializer`: `status`,
the two completion documents and `notes`.  `none` / `false` means the field
was not supplied with the request. -/
structure AdminUpdatePayload where
  status : Option TransactionStatus
  transaction_completion_document : Bool
  additional_completion_document : Bool
  notes : Option String
  deriving DecidableEq, Repr

/-- `AdminTransactionUpdateSerializer.validate`
(`serializers.py` lines 404-415): when the effective status is `COMPLETED`,
a completion document must be supplied with the request or already stored on
the instance. -/
def serializerValidate (inst : Transaction) (p : AdminUpdatePayload) : Bool :=
  let statusValue := p.status.getD inst.status
  !(statusValue == .completed && !p.transaction_completion_document
      && !inst.transaction_completion_document)

/-- `ModelSerializer.update` semantics for the admin update serializer:
each supplied field replaces the stored one, absent fields are untouched. -/
def applyAdminUpdate (inst : Transaction) (p : AdminUpdatePayload) : Transaction :=
  { inst with
    status := p.status.getD inst.status
    transaction_completion_document :=
      p.transaction_completion_document || inst.transaction_completion_document
    additional_completion_document :=
      p.additional_completion_document || inst.additional_completion_document
    notes := match p.notes with | some s => some s | none => inst.notes }

/-- Field-level validation of the `status` field: DRF invokes
`validate_status` only when the request supplies the field. -/
def statusFieldOk (snapshot : Transaction) : Option TransactionStatus → Bool
  | some v => validate_status snapshot v
  | none => true

/-- The commit phase of `AdminTransactionViewSet.update`
(`views.py` lines 847-897).  In source order: non-staff callers have an empty
queryset (404); `check_transaction_access` on the snapshot (403); the extra
`PROCESSING` guard — only the processing admin or the transaction owner may
touch a `PROCESSING` record (403); serializer validation (`validate_status`
then the completion-document rule, both HTTP 400); finally `serializer.save()`
writes the modified snapshot unconditionally over the store. -/
def adminUpdateCommit (store snapshot : Transaction) (u : UserRec)
    (p : AdminUpdatePayload) : UpdateOutcome × Transaction :=
  if !u.is_staff then (.notFound, store)
  else if !(check_transaction_access snapshot u) then (.forbidden, store)
  else if snapshot.status == .processing && snapshot.processing_admin != some u.uid
      && snapshot.userId != u.uid then (.forbidden, store)
  else if !(statusFieldOk snapshot p.status) then (.validationError, store)
  else if !(serializerValidate snapshot p) then (.validationError, store)
  else
    let t := applyAdminUpdate snapshot p
    (.ok t, t)

/-- Serialized execution of the admin update endpoint. -/
def adminUpdateView (store : Transaction) (u : UserRec) (p : AdminUpdatePayload) :
    UpdateOutcome × Transaction :=
  adminUpdateCommit store store u p

/-- The commit phase of `TransactionViewSet.destroy`
(`views.py` lines 426-452): the queryset is filtered to the caller's own
transactions (404 otherwise); a snapshot that is not `PENDING` is rejected
with a generic 400; otherwise the status is set to `CANCELLED` and the
snapshot saved unconditionally over the store.  The `cancel` action
(lines 476-511) performs the identical check-and-save. -/
def destroyCommit (store snapshot : Transaction) (u : UserRec) :
    UpdateOutcome × Transaction :=
  if snapshot.userId != u.uid then (.notFound, store)
  else if snapshot.status != .pending then (.badRequest, store)
  else
    let t := { snapshot with status := .cancelled }
    (.ok t, t)

/-- Serialized execution of the owner cancel endpoint. -/
def destroyView (store : Transaction) (u : UserRec) : UpdateOutcome × Transaction :=
  destroyCommit store store u

/-- `TransactionViewSet.update` (`views.py` lines 361-401): owner-only
queryset, a strict `PENDING` guard returning 400, and a serializer
(`TransactionUpdateSerializer`) whose writable fields are all outside the
ones modelled here — it can touch neither `status`, `processing_admin` nor
the completion documents — so on the modelled record a successful owner
update is the identity. -/
def ownerUpdateView (store : Transaction) (u : UserRec) : UpdateOutcome × Transaction :=
  if store.userId != u.uid then (.notFound, store)
  else if store.status != .pending then (.badRequest, store)
  else (.ok store, store)

/-- A lifecycle operation on a single transaction record, serialized: each of
the four request handlers that can touch the modelled fields. -/
inductive Op
  | adminView (u : UserRec)
  | adminUpdate (u : UserRec) (p : AdminUpdatePayload)
  | ownerCancel (u : UserRec)
  | ownerUpdate (u : UserRec)
  deriving Repr

/-- Stored record after one serialized operation. -/
def applyOp (t : Transaction) : Op → Transaction
  | .adminView u => (adminDetailView t u).2
  | .adminUpdate u p => (adminUpdateView t u p).2
  | .ownerCancel u => (destroyView t u).2
  | .ownerUpdate u => (ownerUpdateView t u).2

/-- Stored record after a serialized sequence of operations. -/
def runOps (t : Transaction) : List Op → Transaction
  | [] => t
  | op :: rest => runOps (applyOp t op) rest

/-- Admin detail views executed one after the other (serialized): returns the
final store and the per-caller outcomes in order. -/
def runAdminViews (store : Transaction) :
    List UserRec → Transaction × List AdminViewOutcome
  | [] => (store, [])
  | u :: rest =>
    let r := adminDetailView store u
    let tail := runAdminViews r.2 rest
    (tail.1, r.1 :: tail.2)

/-- The push-notification fields of `NotificationPreference`
(`payment/apps/notifications/models.py`) consulted by the dispatcher. -/
structure NotificationPreference where
  push_transaction_created : Bool
  push_transaction_updated : Bool
  push_transaction_completed : Bool
  admin_new_transactions : Bool
  deriving DecidableEq, Repr

/-- The action string computed by `handle_transaction_status_change`
(`signals.py` lines 56-66) from the new status via `status_action_map`. -/
inductive NotifAction
  | processing
  | completed
  | failed
  | cancelled
  deriving DecidableEq, Repr

/-- `status_action_map` of `signals.py` lines 58-63: `PENDING` is absent from
the map, so no user notification is dispatched for it. -/
def statusAction : TransactionStatus → Option NotifAction
  | .processing => some .processing
  | .completed => some .completed
  | .failed => some .failed
  | .cancelled => some .cancelled
  | .pending => none

/-- The `admin_name` metadata value built in
`NotificationService.notify_user_transaction_update` (`services.py`
line 287): first and last name joined and stripped, falling back to the
email when blank. -/
def adminDisplayName (a : UserRec) : String :=
  let n := (a.first_name ++ " " ++ a.last_name).trim
  if n == "" then a.email else n

/-- The `Notification` row created by
`NotificationService.notify_user_transaction_update`: recipient (always the
transaction's user), the action, and the `admin_email` / `admin_name`
metadata attributing the change. -/
structure NotificationRec where
  recipientId : Nat
  action : NotifAction
  admin_email : String
  admin_name : String
  deriving DecidableEq, Repr

/-- `handle_transaction_status_change` lines 49-54: the acting admin is the
`_admin_user` attribute stashed by the admin update view if present,
otherwise the transaction's `processing_admin`, otherwise the first active
staff user in the database (`User.objects.filter(is_staff=True,
is_active=True).first()`, which may not exist). -/
def resolveAdminUser (adminUserAttr paUser firstStaff : Option UserRec) :
    Option UserRec :=
  match adminUserAttr with
  | some a => some a
  | none =>
    match paUser with
    | some pa => some pa
    | none => firstStaff

/-- The push gate of `notify_user_transaction_update` (`services.py` lines
292-294): push is attempted when the user has no preference row, or the
`completed` bucket is enabled for a completed action, or the `updated` bucket
is enabled for a processing/failed/cancelled action. -/
def pushEnabled (prefs : Option NotificationPreference) (action : NotifAction) :
    Bool :=
  match prefs with
  | none => true
  | some p =>
    (action == .completed && p.push_transaction_completed) ||
      ((action == .processing || action == .failed || action == .cancelled)
        && p.push_transaction_updated)

/-- Composition of the status-change dispatch path for one committed save:
`handle_transaction_status_change` (pre-save, `signals.py` lines 31-75)
followed by `handle_transaction_updated` (post-save, lines 78-106) calling
`notify_user_transaction_update` (`services.py` lines 244-298).
Arguments: `oldStatus` is the status re-read from the database in pre-save,
`t` the instance being saved, `adminUserAttr` the `_admin_user` attribute,
`paUser` the user row behind `t.processing_admin`, `firstStaff` the first
active staff user.  Returns `none` when no user notification happens, and
otherwise the created `Notification` row together with whether a push
delivery attempt is made for it — the row itself is created before and
independent of the preference gate. -/
def dispatchStatusChange (oldStatus : TransactionStatus) (t : Transaction)
    (adminUserAttr paUser firstStaff : Option UserRec)
    (ownerPrefs : Option NotificationPreference) :
    Option (NotificationRec × Bool) :=
  if oldStatus == t.status then none
  else
    match resolveAdminUser adminUserAttr paUser firstStaff with
    | none => none
    | some admin =>
      match statusAction t.status with
      | none => none
      | some action =>
        some ({ recipientId := t.userId
                action := action
                admin_email := admin.email
                admin_name := adminDisplayName admin },
          pushEnabled ownerPrefs action)

/-! Concrete actors and records used by witnesses and counterexamples. -/

/-- A staff admin. -/
def alice : UserRec :=
  { uid := 1, is_staff := true, is_active := true
    email := "alice@example.com", first_name := "Alice", last_name := "Ade" }

/-- A second, distinct staff admin. -/
def bob : UserRec :=
  { uid := 2, is_staff := true, is_active := true
    email := "bob@example.com", first_name := "Bob", last_name := "Eze" }

/-- A regular (non-staff) user, owner of the sample transactions. -/
def carol : UserRec :=
  { uid := 3, is_staff := false, is_active := true
    email := "carol@example.com", first_name := "Carol", last_name := "Obi" }

/-- A staff member who is also the owner of `txOwnedByStaff`. -/
def dave : UserRec :=
  { uid := 4, is_staff := true, is_active := true
    email := "dave@example.com", first_name := "Dave", last_name := "Ike" }

/-- A transaction owned by `carol`, claimed by `alice` (status `PROCESSING`,
`processing_admin = alice`). -/
def txClaimedByAlice : Transaction :=
  { userId := 3, status := .processing, processing_admin := some 1
    transaction_completion_document := false
    additional_completion_document := false, notes := none }

/-- A `PROCESSING` transaction owned by the staff member `dave` and claimed
by `alice`. -/
def txOwnedByStaff : Transaction :=
  { userId := 4, status := .processing, processing_admin := some 1
    transaction_completion_document := false
    additional_completion_document := false, notes := none }

/-- Payload requesting only a status change. -/
def statusOnlyPayload (v : TransactionStatus) : AdminUpdatePayload :=
  { status := some v, transaction_completion_document := false
    additional_completion_document := false, notes := none }

/-- A completed transaction owned by `carol`, processed by `alice`, with its
completion document stored. -/
def txCompleted : Transaction :=
  { userId := 3, status := .completed, processing_admin := some 1
    transaction_completion_document := true
    additional_completion_document := false, notes := none }

/-- The direction of the spec invariant that the code maintains: a non-null
`processing_admin` implies a status among `PROCESSING`, `COMPLETED`,
`FAILED`. -/
def Inv (t : Transaction) : Prop :=
  t.processing_admin ≠ none →
    t.status = .processing ∨ t.status = .completed ∨ t.status = .failed

/-- Owner preferences with every push bucket for status changes disabled. -/
def prefsOff : NotificationPreference :=
  { push_transaction_created := true, push_transaction_updated := false
    push_transaction_completed := false, admin_new_transactions := true }

/-- A cancelled transaction owned by `carol`, never claimed, used by the
dispatch examples. -/
def txCancelled : Transaction :=
  { userId := 3, status := .cancelled, processing_admin := none
    transaction_completion_document := false
    additional_completion_document := false, notes := none }

/-! ### C3 — admin detail view of a transaction processed by another admin -/

/-- C3, counterexample.  The claim says an admin requesting the detail view
of a transaction that is `PROCESSING` under a different admin "does not fail
with an error" and receives the record as a read-only view.  On the code,
`check_transaction_access` denies any admin other than the processing admin,
and `AdminTransactionViewSet.list` answers HTTP 403: admin `bob` requesting
`txClaimedByAlice` (claimed by `alice`) gets `forbidden`, not a view. -/
theorem claim3_counterexample :
    adminDetailView txClaimedByAlice bob = (.forbidden, txClaimedByAlice)
    ∧ bob.is_staff = true ∧ txClaimedByAlice.processing_admin ≠ some bob.uid
    ∧ txClaimedByAlice.userId ≠ bob.uid := by
  decide

/-- A staff member who is neither the owner nor the processing admin of a
`PROCESSING` transaction is denied the detail view and nothing is written. -/
theorem adminView_forbidden (t : Transaction) (u : UserRec)
    (hstaff : u.is_staff = true) (hst : t.status = .processing)
    (hpa : t.processing_admin ≠ some u.uid) (howner : t.userId ≠ u.uid) :
    adminDetailView t u = (.forbidden, t) := by
  have hu : (t.userId == u.uid) = false := by
    simp [beq_eq_false_iff_ne]; exact howner
  have hp : (t.processing_admin == some u.uid) = false := by
    simp [beq_eq_false_iff_ne]; exact hpa
  simp [adminDetailView, adminDetailCommit, check_transaction_access,
    hstaff, hst, hu, hp]

/-- C3, amended: for every transaction in `PROCESSING` under a processing
admin different from the requesting staff member (who is not the owner), the
admin detail view returns `forbidden` (HTTP 403) and leaves the record
unchanged — the second admin is rejected, not shown a read-only view. -/
theorem claim3_amended (t : Transaction) (u : UserRec)
    (hstaff : u.is_staff = true) (hst : t.status = .processing)
    (hpa : t.processing_admin ≠ some u.uid) (howner : t.userId ≠ u.uid) :
    adminDetailView t u = (.forbidden, t) :=
  adminView_forbidden t u hstaff hst hpa howner

/-- C3, witness for the amended theorem at a concrete input. -/
theorem claim3_amended_witness :
    adminDetailView txClaimedByAlice bob = (.forbidden, txClaimedByAlice) :=
  claim3_amended txClaimedByAlice bob rfl rfl (by decide) (by decide)

/-! ### C5 — which Pending to Processing transitions set the processing admin -/

/-- C5, counterexample.  The claim says every `PENDING` to `PROCESSING`
transition sets `processing_admin` to the acting admin.  The explicit admin
status update (`AdminTransactionViewSet.update` with
`AdminTransactionUpdateSerializer`) updates only `status`, the completion
documents, and `notes`: admin `alice` moving a fresh transaction to
`PROCESSING` leaves `processing_admin` null. -/
theorem claim5_counterexample :
    ((adminUpdateView (createTransaction 3) alice
        (statusOnlyPayload .processing)).2).status = .processing
    ∧ ((adminUpdateView (createTransaction 3) alice
        (statusOnlyPayload .processing)).2).processing_admin = none
    ∧ (adminUpdateView (createTransaction 3) alice
        (statusOnlyPayload .processing)).1
        = .ok ((adminUpdateView (createTransaction 3) alice
            (statusOnlyPayload .processing)).2) := by
  decide

/-- C5, amended: only the implicit claim-via-detail-fetch sets
`processing_admin`.  (a) A detail fetch of a `PENDING` transaction by a
staff member other than the owner commits `PROCESSING` with
`processing_admin` = the actor; (b) an explicit admin status update from
`PENDING` to `PROCESSING` commits `PROCESSING` but leaves
`processing_admin` exactly as it was. -/
theorem claim5_amended (t : Transaction) (u : UserRec) (p : AdminUpdatePayload)
    (hst : t.status = .pending) (hstaff : u.is_staff = true) :
    (t.userId ≠ u.uid →
      (adminDetailView t u).2.status = .processing
      ∧ (adminDetailView t u).2.processing_admin = some u.uid)
    ∧ (p.status = some .processing →
      (adminUpdateView t u p).2.status = .processing
      ∧ (adminUpdateView t u p).2.processing_admin = t.processing_admin) := by
  constructor
  · intro howner
    have hu : (t.userId == u.uid) = false := by
      simp [beq_eq_false_iff_ne]; exact howner
    simp [adminDetailView, adminDetailCommit, check_transaction_access,
      hstaff, hst, hu, howner]
  · intro hp
    simp [adminUpdateView, adminUpdateCommit, statusFieldOk, check_transaction_access,
      validate_status, serializerValidate, applyAdminUpdate, hstaff, hst, hp]

/-- C5, witness for the amended theorem at concrete inputs. -/
theorem claim5_amended_witness :
    ((adminDetailView (createTransaction 3) alice).2.status = .processing
      ∧ (adminDetailView (createTransaction 3) alice).2.processing_admin
          = some alice.uid)
    ∧ ((adminUpdateView (createTransaction 3) alice
          (statusOnlyPayload .processing)).2.status = .processing
      ∧ (adminUpdateView (createTransaction 3) alice
          (statusOnlyPayload .processing)).2.processing_admin
          = (createTransaction 3).processing_admin) := by
  have h := claim5_amended (createTransaction 3) alice
    (statusOnlyPayload .processing) rfl rfl
  exact ⟨h.1 (by decide), h.2 rfl⟩

/-! ### C7 — updates of a Processing transaction by a non-claiming actor -/

/-- C7, counterexample.  The claim says every update request on a
`PROCESSING` transaction by an actor who is not its processing admin is
rejected with `forbidden` and leaves the record unchanged.  The code exempts
the transaction's owner (`views.py` line 862: `instance.user !=
request.user`): the staff member `dave`, owner of `txOwnedByStaff` claimed
by `alice`, successfully moves it to `FAILED`. -/
theorem claim7_counterexample :
    txOwnedByStaff.processing_admin ≠ some dave.uid
    ∧ (adminUpdateView txOwnedByStaff dave (statusOnlyPayload .failed)).1
        = .ok { txOwnedByStaff with status := .failed }
    ∧ ((adminUpdateView txOwnedByStaff dave
        (statusOnlyPayload .failed)).2).status = .failed := by
  decide

/-- C7, amended: for every `PROCESSING` transaction, an update request by a
staff actor who is neither its processing admin nor the transaction's owner
is rejected with `forbidden` and leaves the record unchanged; the owner, when
staff, bypasses this guard.  In particular an admin who is not the claim
owner requesting `PROCESSING` to `COMPLETED` with a completion document
supplied receives `forbidden`. -/
theorem claim7_amended (t : Transaction) (u : UserRec) (p : AdminUpdatePayload)
    (hstaff : u.is_staff = true) (hst : t.status = .processing)
    (hpa : t.processing_admin ≠ some u.uid) (howner : t.userId ≠ u.uid) :
    adminUpdateView t u p = (.forbidden, t) := by
  have hu : (t.userId == u.uid) = false := by
    simp [beq_eq_false_iff_ne]; exact howner
  have hp : (t.processing_admin == some u.uid) = false := by
    simp [beq_eq_false_iff_ne]; exact hpa
  simp [adminUpdateView, adminUpdateCommit, statusFieldOk, check_transaction_access,
    hstaff, hst, hu, hp]

/-- C7, witness: admin `bob` (not the claim owner), supplying a completion
document and requesting `COMPLETED` on a transaction claimed by `alice`,
receives `forbidden` and the record is unchanged. -/
theorem claim7_amended_witness :
    adminUpdateView txClaimedByAlice bob
      { status := some .completed, transaction_completion_document := true
        additional_completion_document := false, notes := none }
      = (.forbidden, txClaimedByAlice) :=
  claim7_amended txClaimedByAlice bob
    { status := some .completed, transaction_completion_document := true
      additional_completion_document := false, notes := none }
    rfl rfl (by decide) (by decide)

/-! ### C8 — completion document requirement for the Completed transition -/

/-- C8: a request targeting `COMPLETED` with no completion document (neither
supplied with the request nor already stored) is never committed: it is
rejected by the serializer with a `ValidationError` — or already at the
access checks with `forbidden` — and the record is unchanged; when it reaches
validation (processing admin of a `PROCESSING` record) the rejection is
exactly `validationError`.  Conversely, with a document supplied or stored,
the processing admin's `PROCESSING` to `COMPLETED` request commits. -/
theorem claim8 (t : Transaction) (u : UserRec) (p : AdminUpdatePayload)
    (hstaff : u.is_staff = true) (hps : p.status = some .completed) :
    (p.transaction_completion_document = false →
      t.transaction_completion_document = false →
      ((adminUpdateView t u p).1 = .validationError
        ∨ (adminUpdateView t u p).1 = .forbidden)
      ∧ (adminUpdateView t u p).2 = t
      ∧ (t.status = .processing → t.processing_admin = some u.uid →
          (adminUpdateView t u p).1 = .validationError))
    ∧ (t.status = .processing → t.processing_admin = some u.uid →
        (p.transaction_completion_document = true
          ∨ t.transaction_completion_document = true) →
        adminUpdateView t u p
          = (.ok (applyAdminUpdate t p), applyAdminUpdate t p)
        ∧ ((adminUpdateView t u p).2).status = .completed) := by
  constructor
  · intro hpd htd
    by_cases hacc : check_transaction_access t u = true
    · by_cases hguard : (t.status == .processing
          && t.processing_admin != some u.uid && t.userId != u.uid) = true
      · refine ⟨Or.inr ?_, ?_, ?_⟩ <;>
          simp [adminUpdateView, adminUpdateCommit, statusFieldOk, hstaff, hacc, hguard]
        intro _ hpa
        simp [hpa] at hguard
      · cases hts : t.status <;>
          simp [adminUpdateView, adminUpdateCommit, statusFieldOk, hstaff, hacc, hguard, hts,
            hps, validate_status, serializerValidate, hpd, htd]
        refine ⟨?_, ?_, ?_⟩
        · split
          · exact Or.inr rfl
          · exact Or.inl rfl
        · split <;> rfl
        · intro hpa
          rw [if_neg (fun hcon => hcon.1 hpa)]
    · refine ⟨Or.inr ?_, ?_, ?_⟩ <;>
        simp [adminUpdateView, adminUpdateCommit, statusFieldOk, hstaff, hacc]
      intro hts hpa
      simp [check_transaction_access, hstaff, hts, hpa] at hacc
  · intro hts hpa hdoc
    have hacc : check_transaction_access t u = true := by
      simp [check_transaction_access, hstaff, hts, hpa]
    have hdoc' : (p.transaction_completion_document
        || t.transaction_completion_document) = true := by
      rcases hdoc with h | h <;> simp [h]
    constructor
    · simp [adminUpdateView, adminUpdateCommit, statusFieldOk, hstaff, hacc, hts, hpa, hps,
        validate_status, serializerValidate]
      rcases hdoc with h | h <;> simp [h]
    · simp [adminUpdateView, adminUpdateCommit, statusFieldOk, hstaff, hacc, hts, hpa, hps,
        validate_status, serializerValidate, applyAdminUpdate]
      rcases hdoc with h | h <;> simp [h]

/-- C8, witness: on `txClaimedByAlice` (claimed by `alice`, no stored
document), `alice` requesting `COMPLETED` without a document gets
`validationError`; requesting it with a document commits with status
`COMPLETED`. -/
theorem claim8_witness :
    ((adminUpdateView txClaimedByAlice alice
        (statusOnlyPayload .completed)).1 = .validationError)
    ∧ ((adminUpdateView txClaimedByAlice alice
        { status := some .completed, transaction_completion_document := true
          additional_completion_document := false, notes := none }).2).status
        = .completed := by
  refine ⟨((claim8 txClaimedByAlice alice (statusOnlyPayload .completed)
    rfl rfl).1 rfl rfl).2.2 rfl rfl, ?_⟩
  exact ((claim8 txClaimedByAlice alice
    { status := some .completed, transaction_completion_document := true
      additional_completion_document := false, notes := none }
    rfl rfl).2 rfl rfl (Or.inl rfl)).2

/-! ### C6 — terminal states are final, but the rejection type differs -/

/-- C6, counterexample.  The claim says an attempted transition on a
terminal-state transaction yields `Forbidden` or `StaleStateError`.  The
code rejects it with a serializer `ValidationError` (HTTP 400) — the string
`StaleStateError` does not occur anywhere in the repository, and the admin
update on a `COMPLETED` record returns `validationError`, not `forbidden`:
admin `alice` requesting `COMPLETED` to `PROCESSING` on `txCompleted`. -/
theorem claim6_counterexample :
    (adminUpdateView txCompleted alice (statusOnlyPayload .processing)).1
      = .validationError
    ∧ (adminUpdateView txCompleted alice (statusOnlyPayload .processing)).1
      ≠ .forbidden
    ∧ (adminUpdateView txCompleted alice (statusOnlyPayload .processing)).2
      = txCompleted := by
  decide

/-- C6, amended: no operation (admin status update, owner update, owner
cancel, admin detail view) ever changes the status of a transaction in a
terminal state (`COMPLETED`, `FAILED` or `CANCELLED`); an attempted admin
status transition on it is rejected with a serializer `ValidationError`
(HTTP 400), and an owner cancel with a generic 400 bad request — not with
`Forbidden` and not with a typed stale-state error, which the code does not
define. -/
theorem claim6_amended (t : Transaction) (u : UserRec) (p : AdminUpdatePayload)
    (hterm : t.status = .completed ∨ t.status = .failed ∨ t.status = .cancelled) :
    ((adminUpdateView t u p).2).status = t.status
    ∧ (destroyView t u).2 = t
    ∧ (adminDetailView t u).2 = t
    ∧ (ownerUpdateView t u).2 = t
    ∧ (∀ v, u.is_staff = true → p.status = some v →
        (adminUpdateView t u p).1 = .validationError)
    ∧ (t.userId = u.uid → (destroyView t u).1 = .badRequest)
    ∧ (u.is_staff = true → (adminDetailView t u).1 = .view t) := by
  have hnp : t.status ≠ .pending := by
    rcases hterm with h | h | h <;> simp [h]
  have hnproc : t.status ≠ .processing := by
    rcases hterm with h | h | h <;> simp [h]
  have hvs : ∀ v, validate_status t v = false := by
    intro v
    rcases hterm with h | h | h <;> simp [validate_status, h]
  have hacc : u.is_staff = true → check_transaction_access t u = true := by
    intro hs
    by_cases hu : t.userId = u.uid <;>
      simp [check_transaction_access, hs, hu, hnproc]
  refine ⟨?_, ?_, ?_, ?_, ?_, ?_, ?_⟩
  · by_cases hs : u.is_staff = true
    · by_cases hg : (t.status == .processing
          && t.processing_admin != some u.uid && t.userId != u.uid) = true
      · simp [hnproc] at hg
      · cases hps : p.status with
        | some v =>
          simp [adminUpdateView, adminUpdateCommit, statusFieldOk, hs, hacc hs, hg, hps, hvs]
        | none =>
          by_cases hsv : serializerValidate t p = true <;>
            simp [adminUpdateView, adminUpdateCommit, statusFieldOk, hs, hacc hs, hg, hps,
              hsv, applyAdminUpdate]
    · have hs' : u.is_staff = false := by
        cases h : u.is_staff
        · rfl
        · exact absurd h hs
      simp [adminUpdateView, adminUpdateCommit, statusFieldOk, hs']
  · by_cases hu : t.userId = u.uid <;>
      simp [destroyView, destroyCommit, hu, hnp]
  · by_cases hs : u.is_staff = true
    · by_cases hacc' : check_transaction_access t u = true <;>
        simp [adminDetailView, adminDetailCommit, hs, hacc', hnp]
    · have hs' : u.is_staff = false := by
        cases h : u.is_staff
        · rfl
        · exact absurd h hs
      simp [adminDetailView, adminDetailCommit, hs']
  · by_cases hu : t.userId = u.uid <;>
      simp [ownerUpdateView, hu, hnp]
  · intro v hs hps
    by_cases hg : (t.status == .processing
        && t.processing_admin != some u.uid && t.userId != u.uid) = true
    · simp [hnproc] at hg
    · simp [adminUpdateView, adminUpdateCommit, statusFieldOk, hs, hacc hs, hg, hps, hvs]
  · intro hu
    simp [destroyView, destroyCommit, hu, hnp]
  · intro hs
    simp [adminDetailView, adminDetailCommit, hs, hacc hs, hnp]

/-- C6, witness for the amended theorem at a concrete terminal record. -/
theorem claim6_amended_witness :
    ((adminUpdateView txCompleted bob (statusOnlyPayload .failed)).2).status
      = txCompleted.status
    ∧ (destroyView txCompleted carol).2 = txCompleted
    ∧ (adminUpdateView txCompleted bob (statusOnlyPayload .failed)).1
      = .validationError
    ∧ (destroyView txCompleted carol).1 = .badRequest := by
  have h := claim6_amended txCompleted bob (statusOnlyPayload .failed)
    (Or.inl rfl)
  have h2 := claim6_amended txCompleted carol (statusOnlyPayload .failed)
    (Or.inl rfl)
  exact ⟨h.1, h2.2.1, h.2.2.2.2.1 .failed rfl rfl, h2.2.2.2.2.2.1 rfl⟩

/-! ### C4 — the processing-admin / status relationship -/

/-- A freshly created transaction satisfies the invariant (its
`processing_admin` is null). -/
theorem inv_create (o : Nat) : Inv (createTransaction o) := by
  intro h
  simp [createTransaction] at h

/-- Characterization of the admin update's write: either the store is left
unchanged, or the written record is `applyAdminUpdate` of the snapshot and
any requested status change passed `validate_status`. -/
theorem adminUpdate_char (t : Transaction) (u : UserRec) (p : AdminUpdatePayload) :
    (adminUpdateView t u p).2 = t
    ∨ ((adminUpdateView t u p).2 = applyAdminUpdate t p
        ∧ ∀ v, p.status = some v → validate_status t v = true) := by
  unfold adminUpdateView adminUpdateCommit
  split
  · exact Or.inl rfl
  split
  · exact Or.inl rfl
  split
  · exact Or.inl rfl
  by_cases hok : statusFieldOk t p.status = true
  · by_cases hsv : serializerValidate t p = true
    · refine Or.inr ⟨?_, fun v hv => ?_⟩
      · simp [hok, hsv]
      · rw [hv] at hok
        simpa [statusFieldOk] using hok
    · have hsv' : serializerValidate t p = false := by simpa using hsv
      refine Or.inl ?_
      simp [hok, hsv']
  · have hok' : statusFieldOk t p.status = false := by simpa using hok
    refine Or.inl ?_
    simp [hok']

/-- The admin update never touches `processing_admin`. -/
theorem adminUpdate_pa (t : Transaction) (u : UserRec) (p : AdminUpdatePayload) :
    (adminUpdateView t u p).2.processing_admin = t.processing_admin := by
  rcases adminUpdate_char t u p with h | ⟨h, _⟩ <;> rw [h]
  simp [applyAdminUpdate]

/-- Characterization of the owner cancel's write: either the store is left
unchanged, or the snapshot was `PENDING` and the written record is the
snapshot with status `CANCELLED`. -/
theorem destroy_char (t : Transaction) (u : UserRec) :
    (destroyView t u).2 = t
    ∨ ((destroyView t u).2 = { t with status := .cancelled }
        ∧ t.status = .pending) := by
  unfold destroyView destroyCommit
  repeat' split
  · exact Or.inl rfl
  · exact Or.inl rfl
  case _ h1 h2 =>
    exact Or.inr ⟨rfl, by simpa using h2⟩

/-- The owner cancel never touches `processing_admin`. -/
theorem destroy_pa (t : Transaction) (u : UserRec) :
    (destroyView t u).2.processing_admin = t.processing_admin := by
  rcases destroy_char t u with h | ⟨h, _⟩ <;> rw [h]

/-- The owner update leaves the modelled record unchanged. -/
theorem ownerUpdate_snd (t : Transaction) (u : UserRec) :
    (ownerUpdateView t u).2 = t := by
  unfold ownerUpdateView
  repeat' split
  all_goals rfl

/-- Characterization of the admin detail view's write: either the store is
left unchanged, or the snapshot was `PENDING`, the caller a staff member
other than the owner, and the written record carries status `PROCESSING`
with `processing_admin` = the caller. -/
theorem adminView_char (t : Transaction) (u : UserRec) :
    (adminDetailView t u).2 = t
    ∨ ((adminDetailView t u).2
          = { t with status := .processing, processing_admin := some u.uid }
        ∧ t.status = .pending) := by
  unfold adminDetailView adminDetailCommit
  repeat' split
  all_goals try exact Or.inl rfl
  case _ hcl =>
    refine Or.inr ⟨rfl, ?_⟩
    have := hcl
    simp at this
    exact this.1.1

/-- Each serialized operation preserves the invariant. -/
theorem inv_applyOp (t : Transaction) (op : Op) (h : Inv t) :
    Inv (applyOp t op) := by
  cases op with
  | adminView u =>
    show Inv (adminDetailView t u).2
    rcases adminView_char t u with hc | ⟨hc, _⟩ <;> rw [hc]
    · exact h
    · intro _
      exact Or.inl rfl
  | adminUpdate u p =>
    show Inv (adminUpdateView t u p).2
    rcases adminUpdate_char t u p with hc | ⟨hc, hv⟩ <;> rw [hc]
    · exact h
    · intro hpa
      have hpa' : t.processing_admin ≠ none := by
        simpa [applyAdminUpdate] using hpa
      have hst := h hpa'
      cases hps : p.status with
      | none =>
        simpa [applyAdminUpdate, hps] using hst
      | some v =>
        have hok := hv v hps
        rcases hst with h1 | h1 | h1 <;>
          simp [validate_status, h1] at hok <;>
          rcases hok with h2 | h2 <;>
          simp [applyAdminUpdate, hps, h2]
  | ownerCancel u =>
    show Inv (destroyView t u).2
    rcases destroy_char t u with hc | ⟨hc, hpend⟩ <;> rw [hc]
    · exact h
    · intro hpa
      have hpa' : t.processing_admin ≠ none := by simpa using hpa
      rcases h hpa' with h1 | h1 | h1 <;> rw [hpend] at h1 <;> cases h1
  | ownerUpdate u =>
    show Inv (ownerUpdateView t u).2
    rw [ownerUpdate_snd]
    exact h

/-- A serialized run from any invariant state stays in invariant states. -/
theorem runOps_inv (ops : List Op) (t : Transaction) (h : Inv t) :
    Inv (runOps t ops) := by
  induction ops generalizing t with
  | nil => exact h
  | cons op rest ih => exact ih (applyOp t op) (inv_applyOp t op h)

/-- Once the invariant holds and `processing_admin` is set, no serialized
operation changes it. -/
theorem pa_stable (t : Transaction) (op : Op) (a : Nat) (h : Inv t)
    (ha : t.processing_admin = some a) :
    (applyOp t op).processing_admin = some a := by
  cases op with
  | adminView u =>
    show (adminDetailView t u).2.processing_admin = some a
    rcases adminView_char t u with hc | ⟨hc, hpend⟩
    · rw [hc]; exact ha
    · rcases h (by simp [ha]) with h1 | h1 | h1 <;> rw [hpend] at h1 <;> cases h1
  | adminUpdate u p =>
    show (adminUpdateView t u p).2.processing_admin = some a
    rw [adminUpdate_pa]; exact ha
  | ownerCancel u =>
    show (destroyView t u).2.processing_admin = some a
    rw [destroy_pa]; exact ha
  | ownerUpdate u =>
    show (ownerUpdateView t u).2.processing_admin = some a
    rw [ownerUpdate_snd]; exact ha

/-- C4, counterexample.  The claim states `processing_admin` is non-null iff
the status is `PROCESSING`, `COMPLETED` or `FAILED`.  The explicit admin
status update does not set `processing_admin`: `alice` moving a fresh
transaction to `FAILED` yields status `FAILED` with `processing_admin`
still null. -/
theorem claim4_counterexample :
    ((adminUpdateView (createTransaction 3) alice
        (statusOnlyPayload .failed)).2).status = .failed
    ∧ ((adminUpdateView (createTransaction 3) alice
        (statusOnlyPayload .failed)).2).processing_admin = none := by
  decide

/-- C4, amended: in every serialized run from creation, a non-null
`processing_admin` implies status `PROCESSING`, `COMPLETED` or `FAILED`
(the converse fails, see the counterexample), and once `processing_admin`
is set no operation ever changes it. -/
theorem claim4_amended :
    (∀ (o : Nat) (ops : List Op), Inv (runOps (createTransaction o) ops))
    ∧ (∀ (t : Transaction) (op : Op) (a : Nat), Inv t →
        t.processing_admin = some a →
        (applyOp t op).processing_admin = some a) :=
  ⟨fun o ops => runOps_inv ops (createTransaction o) (inv_create o),
   fun t op a h ha => pa_stable t op a h ha⟩

/-- C4, witness for the amended theorem at concrete inputs: a run in which
`alice` claims a fresh transaction (so `processing_admin` becomes non-null),
and stability of the claim under a further operation by `bob`. -/
theorem claim4_amended_witness :
    Inv (runOps (createTransaction 3) [Op.adminView alice, Op.adminView bob])
    ∧ (applyOp txClaimedByAlice (Op.adminView bob)).processing_admin
        = some 1 := by
  refine ⟨claim4_amended.1 3 [Op.adminView alice, Op.adminView bob], ?_⟩
  exact claim4_amended.2 txClaimedByAlice (Op.adminView bob) 1
    (fun _ => Or.inl rfl) rfl

/-! ### C9 — preference gating of user notifications -/

/-- C9, counterexample.  The claim says a `Notification` record is created
and delivery attempted only if the owner's preference for the matching
category is enabled.  In the code the record is created unconditionally
(`notify_user_transaction_update` calls `create_notification` before the
preference check); only the push delivery attempt is gated: with every push
bucket disabled, the dispatch still produces a record — with the push flag
false. -/
theorem claim9_counterexample :
    prefsOff.push_transaction_updated = false
    ∧ prefsOff.push_transaction_completed = false
    ∧ dispatchStatusChange .pending txCancelled (some alice) none none
        (some prefsOff)
      = some ({ recipientId := 3, action := .cancelled
                admin_email := alice.email
                admin_name := adminDisplayName alice }, false) := by
  refine ⟨rfl, rfl, rfl⟩

/-- C9, amended: for every committed status change the dispatcher always
creates the `Notification` record for the transaction's owner — the created
record does not depend on the owner's preferences at all — and only the push
delivery attempt is gated, exactly by `pushEnabled`: the `completed` bucket
for a completed action, the `updated` bucket for processing/failed/cancelled,
with delivery attempted when the owner has no preference row. -/
theorem claim9_amended (old : TransactionStatus) (t : Transaction)
    (aAttr paU fS : Option UserRec)
    (prefs prefs2 : Option NotificationPreference) :
    ((dispatchStatusChange old t aAttr paU fS prefs).map Prod.fst
      = (dispatchStatusChange old t aAttr paU fS prefs2).map Prod.fst)
    ∧ (∀ r b, dispatchStatusChange old t aAttr paU fS prefs = some (r, b) →
        r.recipientId = t.userId ∧ b = pushEnabled prefs r.action) := by
  constructor
  · unfold dispatchStatusChange
    split
    · rfl
    · cases hr : resolveAdminUser aAttr paU fS
      · rfl
      · cases ha : statusAction t.status <;> rfl
  · intro r b
    unfold dispatchStatusChange
    by_cases hq : (old == t.status) = true
    · rw [if_pos hq]
      intro h
      cases h
    · rw [if_neg hq]
      cases hr : resolveAdminUser aAttr paU fS
      · intro h
        cases h
      · cases ha : statusAction t.status
        · intro h
          cases h
        · intro h
          simp only [Option.some.injEq, Prod.mk.injEq] at h
          rcases h with ⟨hrec, hb⟩
          exact ⟨by rw [← hrec], by rw [← hrec, ← hb]⟩

/-- C9, witness for the amended theorem: the record created for the cancel
event is the same whether the owner's push buckets are disabled or absent,
and the push flag matches the preference gate. -/
theorem claim9_amended_witness :
    ((dispatchStatusChange .pending txCancelled (some alice) none none
        (some prefsOff)).map Prod.fst
      = (dispatchStatusChange .pending txCancelled (some alice) none none
        none).map Prod.fst)
    ∧ ({ recipientId := 3, action := .cancelled
         admin_email := alice.email
         admin_name := adminDisplayName alice : NotificationRec }.recipientId
          = txCancelled.userId
      ∧ false = pushEnabled (some prefsOff) NotifAction.cancelled) := by
  have h := claim9_amended .pending txCancelled (some alice) none none
    (some prefsOff) none
  exact ⟨h.1, h.2 _ false rfl⟩

/-! ### C10 — attribution fallback to the first active staff user -/

/-- C10: when a status change is committed with no `_admin_user` attribute
and a null `processing_admin`, the dispatched user notification attributes
the change to the first active staff user found in the database: its
`admin_email` / `admin_name` metadata carry that user's email and display
name, although that admin took no part in the transition. -/
theorem claim10 (old : TransactionStatus) (t : Transaction) (fS : UserRec)
    (prefs : Option NotificationPreference) (a : NotifAction)
    (hch : (old == t.status) = false) (ha : statusAction t.status = some a) :
    dispatchStatusChange old t none none (some fS) prefs
      = some ({ recipientId := t.userId, action := a
                admin_email := fS.email
                admin_name := adminDisplayName fS }, pushEnabled prefs a) := by
  unfold dispatchStatusChange resolveAdminUser
  simp [hch, ha]

/-- C10, witness: the owner `carol` cancels her own fresh `PENDING`
transaction (so no `_admin_user` is stashed and `processing_admin` is null);
the dispatched notification is attributed to `alice`, the first active staff
user, who took no part in the cancel. -/
theorem claim10_witness :
    dispatchStatusChange .pending
        (destroyView (createTransaction 3) carol).2 none none (some alice) none
      = some ({ recipientId := (destroyView (createTransaction 3) carol).2.userId
                action := .cancelled
                admin_email := alice.email
                admin_name := adminDisplayName alice },
              pushEnabled none .cancelled) :=
  claim10 .pending (destroyView (createTransaction 3) carol).2 alice none
    .cancelled (by decide) (by decide)

/-! ### C1 — the concurrent claim race -/

/-- C1, counterexample.  The claim says that for N distinct admins invoking
the detail view concurrently on the same `PENDING` transaction, exactly one
becomes the processing admin and the other N−1 never do.  The code's claim
write is an unconditional `save()` with no conditional-update precondition,
so in the interleaving where both admins read the record while it is still
`PENDING` and then commit in turn, `alice`'s commit makes her the processing
admin and `bob`'s subsequent commit — whose snapshot also passed the guard —
overwrites the record and makes *him* the processing admin as well. -/
theorem claim1_counterexample :
    (createTransaction 3).status = .pending
    ∧ alice.uid ≠ bob.uid
    ∧ (createTransaction 3).userId ≠ alice.uid
    ∧ (createTransaction 3).userId ≠ bob.uid
    ∧ ((adminDetailCommit (createTransaction 3) (createTransaction 3)
        alice).2).processing_admin = some alice.uid
    ∧ ((adminDetailCommit
        (adminDetailCommit (createTransaction 3) (createTransaction 3) alice).2
        (createTransaction 3) bob).2).processing_admin = some bob.uid := by
  decide

/-- After the record is claimed, every further serialized detail view by a
staff member who is neither the owner nor the claiming admin is rejected
with `forbidden` and leaves the store untouched. -/
theorem runAdminViews_claimed (k : Nat) (l : List UserRec) :
    ∀ (t : Transaction), t.status = .processing → t.processing_admin = some k →
      (∀ u ∈ l, u.is_staff = true ∧ u.uid ≠ t.userId ∧ u.uid ≠ k) →
      runAdminViews t l = (t, l.map fun _ => AdminViewOutcome.forbidden) := by
  induction l with
  | nil =>
    intro t _ _ _
    rfl
  | cons u rest ih =>
    intro t hst hpa hall
    have hu := hall u (List.mem_cons_self u rest)
    have hpane : t.processing_admin ≠ some u.uid := by
      rw [hpa]
      intro hcon
      exact hu.2.2 (Option.some.inj hcon).symm
    have hv := adminView_forbidden t u hu.1 hst hpane (fun h => hu.2.1 h.symm)
    simp only [runAdminViews, hv, List.map]
    rw [ih t hst hpa (fun w hw => hall w (List.mem_cons_of_mem u hw))]

/-- C1, amended: under serialized execution, given distinct staff admins
(none the owner) fetching the detail view of a `PENDING` transaction one
after the other, exactly the first transitions it to `PROCESSING` with
`processing_admin` set to themself, and every later one receives `forbidden`
and does not become the processing admin.  (Under interleaved execution the
unconditional save lets several of them become the processing admin in turn;
see the counterexample.) -/
theorem claim1_amended (t : Transaction) (a : UserRec) (rest : List UserRec)
    (hst : t.status = .pending) (ha : a.is_staff = true)
    (hao : a.uid ≠ t.userId)
    (hrest : ∀ u ∈ rest, u.is_staff = true ∧ u.uid ≠ t.userId ∧ u.uid ≠ a.uid) :
    (runAdminViews t (a :: rest)).1.status = .processing
    ∧ (runAdminViews t (a :: rest)).1.processing_admin = some a.uid
    ∧ (runAdminViews t (a :: rest)).2
        = AdminViewOutcome.view
            { t with status := .processing, processing_admin := some a.uid }
          :: rest.map (fun _ => .forbidden) := by
  have hne : t.userId ≠ a.uid := fun h => hao h.symm
  have hu : (t.userId == a.uid) = false := by
    simp [beq_eq_false_iff_ne]
    exact hne
  have hclaim : adminDetailView t a
      = (.view { t with status := .processing, processing_admin := some a.uid },
         { t with status := .processing, processing_admin := some a.uid }) := by
    simp [adminDetailView, adminDetailCommit, check_transaction_access,
      ha, hst, hu, hne]
  have hrun := runAdminViews_claimed a.uid rest
    { t with status := .processing, processing_admin := some a.uid }
    rfl rfl (fun w hw => hrest w hw)
  simp only [runAdminViews, hclaim, hrun]
  exact ⟨trivial, trivial, trivial⟩

/-- C1, witness: `alice` then `bob` (distinct staff admins, neither the
owner) serially fetch a fresh `PENDING` transaction: `alice` claims it and
`bob` is rejected. -/
theorem claim1_amended_witness :
    (runAdminViews (createTransaction 3) [alice, bob]).1.status = .processing
    ∧ (runAdminViews (createTransaction 3) [alice, bob]).1.processing_admin
        = some alice.uid
    ∧ (runAdminViews (createTransaction 3) [alice, bob]).2
        = AdminViewOutcome.view
            { createTransaction 3 with
              status := .processing, processing_admin := some alice.uid }
          :: [bob].map (fun _ => .forbidden) :=
  claim1_amended (createTransaction 3) alice [bob] rfl rfl (by decide)
    (by
      intro u hu
      rw [List.mem_singleton] at hu
      subst hu
      exact ⟨rfl, by decide, by decide⟩)

/-! ### C2 — conditional-update discipline and StaleStateError -/

/-- C2, counterexample.  The claim says every status transition commits only
if the stored status still equals the status read by the caller, and that a
failed precondition surfaces a typed `StaleStateError`.  The code has no
conditional update: with the store already moved to `PROCESSING` by
`alice`'s claim, the owner's cancel — still holding the stale `PENDING`
snapshot — commits `CANCELLED` over it and reports plain success, silently
erasing the claim. -/
theorem claim2_counterexample :
    ((adminDetailView (createTransaction 3) alice).2).status = .processing
    ∧ (createTransaction 3).status = .pending
    ∧ destroyCommit (adminDetailView (createTransaction 3) alice).2
        (createTransaction 3) carol
      = (.ok { createTransaction 3 with status := .cancelled },
         { createTransaction 3 with status := .cancelled })
    ∧ ({ createTransaction 3 with
          status := .cancelled } : Transaction).processing_admin = none := by
  decide

/-- C2, amended: every mutating handler decides and writes purely from the
snapshot it read at the start of the request: its outcome is independent of
the currently stored record (so no store conflict is ever detected), and a
successful outcome overwrites the store with the snapshot-derived record
unconditionally.  A failed snapshot guard yields 404, 400, a validation
error or 403 — the code defines no stale-state signal at all. -/
theorem claim2_amended (store store2 snapshot : Transaction) (u : UserRec)
    (p : AdminUpdatePayload) :
    ((destroyCommit store snapshot u).1 = (destroyCommit store2 snapshot u).1)
    ∧ ((adminUpdateCommit store snapshot u p).1
        = (adminUpdateCommit store2 snapshot u p).1)
    ∧ ((adminDetailCommit store snapshot u).1
        = (adminDetailCommit store2 snapshot u).1)
    ∧ (∀ w, (destroyCommit store snapshot u).1 = .ok w →
        (destroyCommit store snapshot u).2 = w)
    ∧ (∀ w, (adminUpdateCommit store snapshot u p).1 = .ok w →
        (adminUpdateCommit store snapshot u p).2 = w) := by
  refine ⟨?_, ?_, ?_, ?_, ?_⟩
  · by_cases h1 : (snapshot.userId != u.uid) = true <;>
      by_cases h2 : (snapshot.status != TransactionStatus.pending) = true <;>
      simp [destroyCommit, h1, h2]
  · by_cases h1 : (!u.is_staff) = true
    · simp [adminUpdateCommit, h1]
    · by_cases h2 : (!check_transaction_access snapshot u) = true
      · simp [adminUpdateCommit, h1, h2]
      · by_cases h3 : (snapshot.status == TransactionStatus.processing
            && snapshot.processing_admin != some u.uid
            && snapshot.userId != u.uid) = true
        · simp [adminUpdateCommit, h1, h2, h3]
        · by_cases h4 : (!statusFieldOk snapshot p.status) = true <;>
            by_cases h5 : (!serializerValidate snapshot p) = true <;>
            simp [adminUpdateCommit, h1, h2, h3, h4, h5]
  · by_cases h1 : (!u.is_staff) = true
    · simp [adminDetailCommit, h1]
    · by_cases h2 : (!check_transaction_access snapshot u) = true
      · simp [adminDetailCommit, h1, h2]
      · by_cases h3 : (snapshot.status == TransactionStatus.pending
            && u.is_staff && snapshot.userId != u.uid) = true <;>
          simp [adminDetailCommit, h1, h2, h3]
  · intro w
    by_cases h1 : (snapshot.userId != u.uid) = true <;>
      by_cases h2 : (snapshot.status != TransactionStatus.pending) = true <;>
      simp [destroyCommit, h1, h2] <;>
      intro h <;> simp [← h]
  · intro w
    by_cases h1 : (!u.is_staff) = true
    · simp [adminUpdateCommit, h1]
    · by_cases h2 : (!check_transaction_access snapshot u) = true
      · simp [adminUpdateCommit, h1, h2]
      · by_cases h3 : (snapshot.status == TransactionStatus.processing
            && snapshot.processing_admin != some u.uid
            && snapshot.userId != u.uid) = true
        · simp [adminUpdateCommit, h1, h2, h3]
        · by_cases h4 : (!statusFieldOk snapshot p.status) = true <;>
            by_cases h5 : (!serializerValidate snapshot p) = true <;>
            simp [adminUpdateCommit, h1, h2, h3, h4, h5] <;>
            intro h <;> simp [← h]

/-- C2, witness for the amended theorem at concrete inputs: the owner's
cancel decision on a stale `PENDING` snapshot is the same whether the store
currently holds the claimed or the completed record, and its success writes
exactly the snapshot-derived cancelled record. -/
theorem claim2_amended_witness :
    ((destroyCommit txClaimedByAlice (createTransaction 3) carol).1
      = (destroyCommit txCompleted (createTransaction 3) carol).1)
    ∧ ((destroyCommit txClaimedByAlice (createTransaction 3) carol).2
      = { createTransaction 3 with status := .cancelled }) := by
  have h := claim2_amended txClaimedByAlice txCompleted (createTransaction 3)
    carol (statusOnlyPayload .failed)
  exact ⟨h.1, h.2.2.2.1 _ (by decide)⟩

end Payment
